import Mathlib

/-!
Verification development for the `wamultisession` WhatsApp multi-session
controller (`src/controllers/whatsappController.js`, `src/routes/whatsappRoute.js`,
`src/server.js`).

The controller keeps a module-level `sessions` map from phone number to a
session object `{ sock, qr, isConnected, isManualDisconnect, disconnectTimer }`,
creates sockets through `makeWASocket`, subscribes event handlers in
`generateQR`, and exposes two endpoints: `getQRCode` (provisioning with a
polling wait for the rendered QR image) and `connect`.

The embedding below models the registry as an association list, sockets and
timers by freshly allocated numeric identifiers, and the asynchronous pieces
(event deliveries, the qr-handler whose commit is delayed across the
`await qrcode.toDataURL(...)` suspension point, timer firings) as explicit
actions on a world state.  Ghost fields (`liveSocks`, `endedSocks`,
`subscribed`, `sockOwner` and the collaborator call counters) instrument the
model so that handle lifetimes and external-collaborator activity can be
stated; they are never read by the embedded program logic itself.
-/

namespace WAMS

/-! ### A small model of the JavaScript values used by the close handler

The close handler computes

  `(lastDisconnect?.error instanceof Boom)?.output?.statusCode !== DisconnectReason.loggedOut`

with the optional chain applied, as parenthesised in the source, to the
boolean result of `instanceof`.  We model just enough of JavaScript member
access semantics to evaluate that expression faithfully: accessing a
property on a boolean or a number yields `undefined`, and `?.` on
`undefined` short-circuits to `undefined`. -/

inductive JVal where
  | undefined
  | jbool (b : Bool)
  | jnum (n : Int)
  | jobj (output : JVal) (statusCode : JVal)
deriving DecidableEq

/-- Property read `v.output`; non-objects have no such property. -/
def JVal.getOutput : JVal → JVal
  | .jobj o _ => o
  | _ => .undefined

/-- Property read `v.statusCode`; non-objects have no such property. -/
def JVal.getStatusCode : JVal → JVal
  | .jobj _ s => s
  | _ => .undefined

/-- Optional chain `v?.output`. -/
def JVal.optChainOutput (v : JVal) : JVal :=
  if v = .undefined then .undefined else v.getOutput

/-- Optional chain `v?.statusCode`. -/
def JVal.optChainStatusCode (v : JVal) : JVal :=
  if v = .undefined then .undefined else v.getStatusCode

/-- The error carried by `lastDisconnect.error`: whether it is a `Boom`
instance, and its JavaScript value (a Boom carries `output.statusCode`). -/
structure JsError where
  isBoom : Bool
  val : JVal
deriving DecidableEq

/-- Baileys `DisconnectReason.loggedOut`. -/
def DisconnectReason_loggedOut : Int := 401

/-- `lastDisconnect?.error instanceof Boom` (undefined is not an instance). -/
def instanceofBoom : Option JsError → Bool
  | some e => e.isBoom
  | none => false

/-- The source subexpression
`(lastDisconnect?.error instanceof Boom)?.output?.statusCode`:
the parentheses make the optional chain act on the boolean `instanceof`
result. -/
def closeStatusCode (err : Option JsError) : JVal :=
  ((JVal.jbool (instanceofBoom err)).optChainOutput).optChainStatusCode

/-- The reconnect decision computed in the `connection === 'close'` branch:
`!session.isManualDisconnect && (...)?.output?.statusCode !== DisconnectReason.loggedOut`. -/
def shouldReconnect (isManualDisconnect : Bool) (err : Option JsError) : Bool :=
  !isManualDisconnect &&
    decide (closeStatusCode err ≠ JVal.jnum DisconnectReason_loggedOut)

/-- A `Boom` error whose `output.statusCode` is `c`, as produced by the
transport on a structured close. -/
def boomWithStatus (c : Int) : JsError :=
  ⟨true, JVal.jobj (JVal.jobj JVal.undefined (JVal.jnum c)) JVal.undefined⟩

/-! ### Session objects and the module-level state

`Session` mirrors the object literals stored into `sessions`; fields that a
given `sessions.set` omits are read back only through falsy checks or
optional chains, so an absent field is modelled by its default. -/

structure Session where
  sock : Option Nat := none
  qr : Option (Nat × String) := none
  isConnected : Bool := false
  isManualDisconnect : Bool := false
  disconnectTimer : Option Nat := none
deriving DecidableEq

/-- A pairing image rendered by `qrcode.toDataURL`.  The first component is a
ghost annotation recording which socket emitted the raw challenge; the code
itself stores only the data-URL string. -/
abbrev QrImage := Nat × String

/-- Model of `qrcode.toDataURL` as an abstract injective rendering. -/
def qrToDataURL (raw : String) : String := "data:image/png;base64," ++ raw

/-- An in-flight `connection.update` qr-branch continuation: the handler has
captured the `session` snapshot and is suspended on
`await qrcode.toDataURL(currentQr)`; committing it later performs
`sessions.set(phone, { ...snapshot, qr })`. -/
structure PendingQr where
  phone : String
  snapshot : Session
  image : QrImage
deriving DecidableEq

/-- An armed `setTimeout` handle: identifier, the phone number the callback
closed over, and the delay in milliseconds. -/
structure TimerRec where
  id : Nat
  phone : String
  delayMs : Nat
deriving DecidableEq

/-- The module-level mutable state, plus ghost instrumentation. -/
structure World where
  /-- The `sessions` map, as an association list. -/
  sessions : List (String × Session) := []
  /-- Fresh socket identifiers. -/
  nextSock : Nat := 0
  /-- Fresh timer identifiers. -/
  nextTimer : Nat := 0
  /-- Ghost: sockets created by `makeWASocket` and not yet `end`ed, with the
  phone number they were created for. -/
  liveSocks : List (Nat × String) := []
  /-- Ghost: sockets on which `sock.end()` has run. -/
  endedSocks : List Nat := []
  /-- Ghost: sockets whose `sock.ev` handlers are currently attached. -/
  subscribed : List Nat := []
  /-- Ghost: the phone each socket was created for (never erased). -/
  sockOwner : List (Nat × String) := []
  /-- Armed timers (removed by `clearTimeout` and on firing). -/
  timers : List TimerRec := []
  /-- Suspended qr-handler continuations. -/
  pending : List PendingQr := []
  /-- Ghost: calls to `useMultiFileAuthState` (credential store). -/
  credCalls : Nat := 0
  /-- Ghost: calls to `makeWASocket` (protocol client factory). -/
  factoryCalls : Nat := 0
  /-- Ghost: calls to `qrcode.toDataURL` (pairing-image encoder). -/
  encodeCalls : Nat := 0
deriving DecidableEq

def initialWorld : World := {}

/-! ### Registry primitives -/

def rget (r : List (String × Session)) (phone : String) : Option Session :=
  (r.find? (fun e => e.1 = phone)).map (fun e => e.2)

def rset (r : List (String × Session)) (phone : String) (s : Session) :
    List (String × Session) :=
  (phone, s) :: r.filter (fun e => e.1 ≠ phone)

/-- `sessions.get(phone)`. -/
def sget (w : World) (phone : String) : Option Session :=
  rget w.sessions phone

/-- `sessions.set(phone, s)`. -/
def sset (w : World) (phone : String) (s : Session) : World :=
  { w with sessions := rset w.sessions phone s }

/-- The session read back with absent treated as defaults. -/
def sessOf (w : World) (phone : String) : Session :=
  (sget w phone).getD {}

/-- The socket currently held by the session of `phone`. -/
def sockOf (w : World) (phone : String) : Option Nat :=
  (sessOf w phone).sock

/-- The phone a socket was created for (the handler closure argument). -/
def ownerOf (w : World) (sid : Nat) : String :=
  ((w.sockOwner.find? (fun e => e.1 = sid)).map (fun e => e.2)).getD ""

/-! ### The controller operations -/

/-- Validation performed by `getAuthPath` and `connectToWhatsApp`:
`!phoneNumber || !/^[0-9]+$/.test(phoneNumber)` rejects. -/
def phoneValid (phone : String) : Bool :=
  !phone.isEmpty && phone.toList.all Char.isDigit

/-- Ghost bookkeeping for `sock.end()`: the socket stops being live. -/
def endSock (w : World) (sid : Nat) : World :=
  { w with
    liveSocks := w.liveSocks.filter (fun pr => pr.1 ≠ sid),
    endedSocks :=
      if sid ∈ w.endedSocks then w.endedSocks else sid :: w.endedSocks }

/-- Ghost bookkeeping for `sock.ev.removeAllListeners()`. -/
def unsubscribeSock (w : World) (sid : Nat) : World :=
  { w with subscribed := w.subscribed.filter (fun x => x ≠ sid) }

/-- `safeEndSocket(phoneNumber)`: if the session holds a socket, remove all
its listeners, end it, and store `{ ...session, sock: null, isConnected: false }`. -/
def safeEndSocket (phone : String) (w : World) : World :=
  match sget w phone with
  | some s =>
    match s.sock with
    | some sid =>
      let w1 := unsubscribeSock w sid
      let w2 := endSock w1 sid
      sset w2 phone { s with sock := none, isConnected := false }
    | none => w
  | none => w

/-- `makeWASocket(...)`: allocate a fresh connection handle.  Ghost state
records it as live, owned by `phone`, and counts the factory call. -/
def makeWASocket (phone : String) (w : World) : Nat × World :=
  (w.nextSock,
    { w with
      nextSock := w.nextSock + 1,
      factoryCalls := w.factoryCalls + 1,
      liveSocks := (w.nextSock, phone) :: w.liveSocks,
      sockOwner := (w.nextSock, phone) :: w.sockOwner })

/-- Body of `generateQR` after validation: `useMultiFileAuthState` (credential
store), `safeEndSocket`, `makeWASocket`, `sessions.set` with a fresh session
object, then handler subscription on `sock.ev`. -/
def generateQR_core (phone : String) (w : World) : World :=
  let w1 := { w with credCalls := w.credCalls + 1 }
  let w2 := safeEndSocket phone w1
  let (sid, w3) := makeWASocket phone w2
  let w4 := sset w3 phone
    { sock := some sid, qr := none, isConnected := false,
      isManualDisconnect := false, disconnectTimer := none }
  { w4 with subscribed := sid :: w4.subscribed }

/-- `generateQR(phoneNumber)`: `getAuthPath` throws on a malformed phone
number before any collaborator is touched; the error propagates to the
caller (the function rethrows from its catch block). -/
def generateQR (phone : String) (w : World) : Except String World :=
  if phoneValid phone then Except.ok (generateQR_core phone w)
  else Except.error "Invalid phone number format"

/-- The qr branch of the `connection.update` handler up to its suspension
point: runs only while the socket is subscribed, snapshots `session`, calls
the encoder, and leaves the commit
`sessions.set(phone, { ...snapshot, qr })` pending behind the `await`. -/
def qrEventBegin (sid : Nat) (raw : String) (w : World) : World :=
  if sid ∈ w.subscribed then
    let phone := ownerOf w sid
    let snap := sessOf w phone
    { w with
      encodeCalls := w.encodeCalls + 1,
      pending := ⟨phone, snap, (sid, qrToDataURL raw)⟩ :: w.pending }
  else w

/-- Resumption of a suspended qr-handler continuation: performs the delayed
`sessions.set(phone, { ...snapshot, qr: qrCode })`. -/
def qrCommit (p : PendingQr) (w : World) : World :=
  if p ∈ w.pending then
    { sset w p.phone { p.snapshot with qr := some p.image } with
      pending := w.pending.erase p }
  else w

/-- A qr event whose encode completes with no interleaving before the commit:
`qrEventBegin` immediately followed by its `qrCommit`. -/
def qrEventSync (sid : Nat) (raw : String) (w : World) : World :=
  if sid ∈ w.subscribed then
    let phone := ownerOf w sid
    let snap := sessOf w phone
    sset { w with encodeCalls := w.encodeCalls + 1 } phone
      { snap with qr := some (sid, qrToDataURL raw) }
  else w

/-- `clearTimeout`. -/
def clearTimer (t : Nat) (w : World) : World :=
  { w with timers := w.timers.filter (fun tm => tm.id ≠ t) }

/-- The `connection === 'close'` branch: computes `shouldReconnect`, clears a
pending disconnect timer, stores `{ ...session, isConnected: false,
disconnectTimer: null }`, and (when the policy says so) invokes
`generateQR(phoneNumber)` asynchronously — reported in the second component.
If `sessions.get` returned `undefined`, the property read
`session.isManualDisconnect` throws and the handler's catch swallows it. -/
def closeEvent (sid : Nat) (err : Option JsError) (w : World) : World × Bool :=
  if sid ∈ w.subscribed then
    let phone := ownerOf w sid
    match sget w phone with
    | some s =>
      let reconnect := shouldReconnect s.isManualDisconnect err
      let w1 := match s.disconnectTimer with
        | some t => clearTimer t w
        | none => w
      let w2 := sset w1 phone { s with isConnected := false, disconnectTimer := none }
      (w2, reconnect)
    | none => (w, false)
  else (w, false)

/-- The `connection === 'open'` branch: arms the 5000 ms disconnect timer and
stores `{ ...session, isConnected: true, isManualDisconnect: false,
disconnectTimer }`. -/
def openEvent (sid : Nat) (w : World) : World :=
  if sid ∈ w.subscribed then
    let phone := ownerOf w sid
    let s := sessOf w phone
    let t := w.nextTimer
    let w1 := { w with nextTimer := t + 1, timers := ⟨t, phone, 5000⟩ :: w.timers }
    sset w1 phone
      { s with isConnected := true, isManualDisconnect := false, disconnectTimer := some t }
  else w

/-- Firing of an armed disconnect timer: the callback runs only if the timer
was not cleared; it performs `sessions.set(phone, { ...sessions.get(phone),
isManualDisconnect: true })` followed by `safeEndSocket(phone)`.  The
callback consults no epoch: it acts on whatever the session holds now. -/
def timerFire (t : Nat) (w : World) : World :=
  match w.timers.find? (fun tm => tm.id = t) with
  | some tm =>
    let w1 := clearTimer t w
    let s := sessOf w1 tm.phone
    let w2 := sset w1 tm.phone { s with isManualDisconnect := true }
    safeEndSocket tm.phone w2
  | none => w

/-- `connectToWhatsApp(phoneNumber)`: validation, the `isConnected` early
return, the stored-credential check, then credential load, `safeEndSocket`,
`clearTimeout`, `makeWASocket` and `sessions.set` — with no handler
subscription.  Thrown validation errors are caught by the function's own
catch block and surfaced as a failure result. -/
def connectToWhatsApp (phone : String) (authExists : Bool) (w : World) :
    (Bool × String) × World :=
  if !phoneValid phone then
    ((false, "Invalid phone number format"), w)
  else if (sessOf w phone).isConnected then
    ((true, "Already connected to WhatsApp"), w)
  else if !authExists then
    ((false, "No authentication data found. Please scan QR code first"), w)
  else
    let w1 := { w with credCalls := w.credCalls + 1 }
    let w2 := safeEndSocket phone w1
    let cur := sessOf w2 phone
    let w3 := match cur.disconnectTimer with
      | some t => clearTimer t w2
      | none => w2
    let (sid, w4) := makeWASocket phone w3
    let w5 := sset w4 phone
      { cur with
        sock := some sid, isConnected := false,
        isManualDisconnect := false, disconnectTimer := none }
    ((true, "Connection process started"), w5)

/-! ### The polling wait of `getQRCode`

The loop `while (!sessions.get(phone)?.qr && attempts < 20) { await sleep(500);
attempts++ }` observes a registry that concurrent events may mutate; `obs i`
is the value of `sessions.get(phone)?.qr` at the check performed after `i`
sleeps (500·i ms after the loop was entered).  `pollExit obs fuel i` is the
check index at which the loop exits, with `fuel` sleeps remaining. -/

def pollExit (obs : Nat → Option QrImage) : Nat → Nat → Nat
  | 0, i => i
  | fuel + 1, i =>
    match obs i with
    | some _ => i
    | none => pollExit obs fuel (i + 1)

/-- Outcome of the wait: the loop exit, the final re-read of
`sessions.get(phone)?.qr` (no suspension separates it from the last check),
and the number of sleeps performed. -/
def getQRCode_poll (obs : Nat → Option QrImage) : Option QrImage × Nat :=
  let i := pollExit obs 20 0
  (obs i, i)

/-! ### The two HTTP endpoints -/

structure HttpResponse where
  status : Nat
  success : Bool
  message : String := ""
  qr : Option QrImage := none
deriving DecidableEq

/-- The reset performed by `getQRCode` before generating:
`sessions.set(phone, { ...(sessions.get(phone) || \x7b\x7d), qr: null,
isManualDisconnect: false })`. -/
def getQRCode_reset (phone : String) (w : World) : World :=
  sset w phone { sessOf w phone with qr := none, isManualDisconnect := false }

/-- `getQRCode(req, res)`: missing/empty phone check, registry reset,
`generateQR` (whose thrown validation error lands in the catch block and is
surfaced with status 500), then the polling wait mapped to 408 or 200. -/
def getQRCode (phone : Option String) (obs : Nat → Option QrImage) (w : World) :
    HttpResponse × World :=
  match phone with
  | none => (⟨400, false, "Phone number is required as query parameter", none⟩, w)
  | some p =>
    if p.isEmpty then
      (⟨400, false, "Phone number is required as query parameter", none⟩, w)
    else
      let w1 := getQRCode_reset p w
      match generateQR p w1 with
      | Except.error msg => (⟨500, false, msg, none⟩, w1)
      | Except.ok w2 =>
        match getQRCode_poll obs with
        | (none, _) => (⟨408, false, "QR Code generation timeout", none⟩, w2)
        | (some img, _) => (⟨200, true, "", some img⟩, w2)

/-- `connect(req, res)`: missing/empty phone check, then
`connectToWhatsApp`, with failures surfaced as status 400. -/
def connect (phone : Option String) (authExists : Bool) (w : World) :
    HttpResponse × World :=
  match phone with
  | none => (⟨400, false, "Phone number is required as query parameter", none⟩, w)
  | some p =>
    if p.isEmpty then
      (⟨400, false, "Phone number is required as query parameter", none⟩, w)
    else
      let (r, w') := connectToWhatsApp p authExists w
      if r.1 then (⟨200, true, r.2, none⟩, w')
      else (⟨400, false, r.2, none⟩, w')

/-! ### Interleaved executions

An action is one atomic segment of the event loop: an API-triggered
(re)connection, an event delivery, a suspended continuation resuming, or a
timer firing.  `qrFinish` is the only action that commits state captured
before a suspension point. -/

inductive Act where
  | startQR (phone : String)
  | connectCall (phone : String) (authExists : Bool)
  | qrBegin (sid : Nat) (raw : String)
  | qrFinish (p : PendingQr)
  | qrSync (sid : Nat) (raw : String)
  | closeEvt (sid : Nat) (err : Option JsError)
  | openEvt (sid : Nat)
  | fireTimer (t : Nat)
  | reset (phone : String)

/-- Whether the action is the delayed commit of a qr-handler continuation. -/
def Act.splitCommit : Act → Bool
  | .qrFinish _ => true
  | _ => false

def stepAct (a : Act) (w : World) : World :=
  match a with
  | .startQR phone =>
    match generateQR phone w with
    | Except.ok w' => w'
    | Except.error _ => w
  | .connectCall phone auth => (connectToWhatsApp phone auth w).2
  | .qrBegin sid raw => qrEventBegin sid raw w
  | .qrFinish p => qrCommit p w
  | .qrSync sid raw => qrEventSync sid raw w
  | .closeEvt sid err => (closeEvent sid err w).1
  | .openEvt sid => openEvent sid w
  | .fireTimer t => timerFire t w
  | .reset phone => getQRCode_reset phone w

def runActs : List Act → World → World
  | [], w => w
  | a :: tl, w => runActs tl (stepAct a w)

/-- At most one created-but-not-torn-down connection handle per account. -/
def atMostOneLive (w : World) : Prop :=
  ∀ p ∈ w.liveSocks, ∀ q ∈ w.liveSocks, p.2 = q.2 → p.1 = q.1

instance (w : World) : Decidable (atMostOneLive w) := by
  unfold atMostOneLive
  infer_instance

/-- Key invariant tying the ghost handle accounting to the registry: every
live socket is the one its owning session currently holds. -/
def LiveInv (w : World) : Prop :=
  ∀ pr ∈ w.liveSocks, sockOf w pr.2 = some pr.1

instance (w : World) : Decidable (LiveInv w) := by
  unfold LiveInv
  infer_instance

/-! ## Registry lemmas -/

theorem rget_rset_same (r : List (String × Session)) (p : String) (s : Session) :
    rget (rset r p s) p = some s := by
  simp [rget, rset, List.find?]

theorem rget_rset_ne (r : List (String × Session)) (p q : String) (s : Session)
    (h : q ≠ p) : rget (rset r p s) q = rget r q := by
  unfold rget rset
  rw [List.find?_cons_of_neg _ (by simpa using fun hpq => h hpq.symm)]
  congr 1
  induction r with
  | nil => rfl
  | cons e tl ih =>
    by_cases he : e.1 = p
    · rw [List.filter_cons_of_neg (by simp [he]),
        List.find?_cons_of_neg _ (by
          simp only [decide_eq_true_eq]
          intro hq
          exact h (hq ▸ he))]
      exact ih
    · rw [List.filter_cons_of_pos (by simpa using he)]
      by_cases hq : e.1 = q
      · rw [List.find?_cons_of_pos _ (by simpa using hq),
          List.find?_cons_of_pos _ (by simpa using hq)]
      · rw [List.find?_cons_of_neg _ (by simpa using hq),
          List.find?_cons_of_neg _ (by simpa using hq)]
        exact ih

theorem sget_sset_same (w : World) (p : String) (s : Session) :
    sget (sset w p s) p = some s := rget_rset_same _ _ _

theorem sget_sset_ne (w : World) (p q : String) (s : Session) (h : q ≠ p) :
    sget (sset w p s) q = sget w q := rget_rset_ne _ _ _ _ h

theorem sessOf_sset_same (w : World) (p : String) (s : Session) :
    sessOf (sset w p s) p = s := by
  unfold sessOf
  rw [sget_sset_same]
  rfl

theorem sessOf_sset_ne (w : World) (p q : String) (s : Session) (h : q ≠ p) :
    sessOf (sset w p s) q = sessOf w q := by
  unfold sessOf
  rw [sget_sset_ne _ _ _ _ h]

/-- Sanity: on an actual Boom object the chain `err.output.statusCode` (the
chain without the misplaced parentheses) does recover the status code, so the
model itself can distinguish the close reasons. -/
theorem boomWithStatus_statusCode (c : Int) :
    ((boomWithStatus c).val.optChainOutput).optChainStatusCode = JVal.jnum c := rfl

/-! ## safeEndSocket lemmas -/

theorem safeEndSocket_ghost (p : String) (w : World) :
    (safeEndSocket p w).nextSock = w.nextSock
    ∧ (safeEndSocket p w).nextTimer = w.nextTimer
    ∧ (safeEndSocket p w).timers = w.timers
    ∧ (safeEndSocket p w).pending = w.pending
    ∧ (safeEndSocket p w).sockOwner = w.sockOwner
    ∧ (safeEndSocket p w).credCalls = w.credCalls
    ∧ (safeEndSocket p w).factoryCalls = w.factoryCalls
    ∧ (safeEndSocket p w).encodeCalls = w.encodeCalls := by
  unfold safeEndSocket
  rcases hs : sget w p with _ | s
  · simp
  rcases hsk : s.sock with _ | sid <;> simp [hsk, sset, endSock, unsubscribeSock]

/-- After `safeEndSocket(p)` the session of `p` holds no socket. -/
theorem sockOf_safeEndSocket_self (p : String) (w : World) :
    sockOf (safeEndSocket p w) p = none := by
  unfold safeEndSocket
  rcases hs : sget w p with _ | s
  · simp [sockOf, sessOf, hs]
  rcases hsk : s.sock with _ | sid
  · simp [sockOf, sessOf, hs, hsk]
  · simp only [hsk]
    unfold sockOf
    rw [sessOf_sset_same]

/-- `safeEndSocket` stores `{ ...session, sock: null, isConnected: false }`:
the other fields survive. -/
theorem safeEndSocket_keeps (p : String) (w : World) :
    (sessOf (safeEndSocket p w) p).isManualDisconnect
      = (sessOf w p).isManualDisconnect
    ∧ (sessOf (safeEndSocket p w) p).disconnectTimer
      = (sessOf w p).disconnectTimer
    ∧ (sessOf (safeEndSocket p w) p).qr = (sessOf w p).qr := by
  unfold safeEndSocket
  rcases hs : sget w p with _ | s
  · simp
  rcases hsk : s.sock with _ | sid
  · simp [hsk]
  · simp [hsk, sessOf, sget_sset_same, hs]

/-- `safeEndSocket` does not make the session connected. -/
theorem safeEndSocket_isConnected (p : String) (w : World) :
    (sessOf (safeEndSocket p w) p).isConnected
      = ((sessOf w p).isConnected && !(sessOf w p).sock.isSome) := by
  unfold safeEndSocket
  rcases hs : sget w p with _ | s
  · simp [sessOf, hs]
  rcases hsk : s.sock with _ | sid
  · simp [sessOf, hs, hsk]
  · simp only [hsk]
    rw [sessOf_sset_same]
    simp [sessOf, hs, hsk]

/-- Whatever socket the session held has been ended and is no longer live. -/
theorem safeEndSocket_ends (p : String) (w : World) (sid : Nat)
    (h : sockOf w p = some sid) :
    sid ∈ (safeEndSocket p w).endedSocks
    ∧ ∀ pr ∈ (safeEndSocket p w).liveSocks, pr.1 ≠ sid := by
  unfold sockOf sessOf at h
  unfold safeEndSocket
  rcases hs : sget w p with _ | s
  · rw [hs] at h
    simp at h
  rw [hs] at h
  simp only [Option.getD_some] at h
  rcases hsk : s.sock with _ | sid2
  · rw [hsk] at h
    simp at h
  rw [hsk] at h
  simp only [Option.some.injEq] at h
  subst h
  simp only [hsk]
  constructor
  · simp only [sset, endSock, unsubscribeSock]
    split
    · assumption
    · exact List.mem_cons_self _ _
  · intro pr hpr
    simp only [sset, endSock, unsubscribeSock] at hpr
    simp only [List.mem_filter] at hpr
    simpa using hpr.2

/-- Listeners are only ever removed by `safeEndSocket`. -/
theorem safeEndSocket_subscribed_subset (p : String) (w : World) :
    ∀ x ∈ (safeEndSocket p w).subscribed, x ∈ w.subscribed := by
  unfold safeEndSocket
  rcases hs : sget w p with _ | s
  · exact fun x hx => hx
  rcases hsk : s.sock with _ | sid
  · simp only [hsk]
    exact fun x hx => hx
  · simp only [hsk]
    intro x hx
    simp only [sset, endSock, unsubscribeSock, List.mem_filter] at hx
    exact hx.1

theorem safeEndSocket_live_subset (p : String) (w : World) :
    ∀ x ∈ (safeEndSocket p w).liveSocks, x ∈ w.liveSocks := by
  unfold safeEndSocket
  rcases hs : sget w p with _ | s
  · exact fun x hx => hx
  rcases hsk : s.sock with _ | sid
  · simp only [hsk]
    exact fun x hx => hx
  · simp only [hsk]
    intro x hx
    simp only [sset, endSock, unsubscribeSock, List.mem_filter] at hx
    exact hx.1

/-! ## Lemmas about the connection-creating operations -/

theorem find?_filter_id_ne (l : List TimerRec) (t : Nat) :
    (l.filter (fun tm => tm.id ≠ t)).find? (fun tm => tm.id = t) = none := by
  induction l with
  | nil => rfl
  | cons e tl ih =>
    by_cases he : e.id = t
    · rw [List.filter_cons_of_neg (by simp [he])]
      exact ih
    · rw [List.filter_cons_of_pos (by simpa using he),
        List.find?_cons_of_neg _ (by simpa using he)]
      exact ih

/-- What one `generateQR` body does: the fresh socket is stored in the
session, is live, and has its handlers subscribed; the socket counter
advances; armed timers are left untouched (no `clearTimeout` on this path). -/
theorem generateQR_core_props (phone : String) (w : World) :
    sockOf (generateQR_core phone w) phone = some w.nextSock
    ∧ (w.nextSock, phone) ∈ (generateQR_core phone w).liveSocks
    ∧ w.nextSock ∈ (generateQR_core phone w).subscribed
    ∧ (generateQR_core phone w).nextSock = w.nextSock + 1
    ∧ (generateQR_core phone w).timers = w.timers
    ∧ (generateQR_core phone w).nextTimer = w.nextTimer := by
  have h := safeEndSocket_ghost phone { w with credCalls := w.credCalls + 1 }
  simp [generateQR_core, makeWASocket, sockOf, sessOf, sget, sset,
    rget_rset_same, h.1, h.2.1, h.2.2.1]

/-- What a successful `connectToWhatsApp` does: success result, fresh socket
stored and live, no handler subscription added, and the session's pending
disconnect timer cleared via `clearTimeout`. -/
theorem connectToWhatsApp_success (phone : String) (w : World)
    (hv : phoneValid phone = true)
    (hnc : (sessOf w phone).isConnected = false) :
    (connectToWhatsApp phone true w).1 = (true, "Connection process started")
    ∧ sockOf (connectToWhatsApp phone true w).2 phone = some w.nextSock
    ∧ (w.nextSock, phone) ∈ (connectToWhatsApp phone true w).2.liveSocks
    ∧ (∀ sid ∈ (connectToWhatsApp phone true w).2.subscribed, sid ∈ w.subscribed)
    ∧ (∀ t, (sessOf w phone).disconnectTimer = some t →
        ((connectToWhatsApp phone true w).2.timers.find? (fun tm => tm.id = t)
          = none)) := by
  have hg := safeEndSocket_ghost phone { w with credCalls := w.credCalls + 1 }
  have hks := safeEndSocket_keeps phone { w with credCalls := w.credCalls + 1 }
  have hsub := safeEndSocket_subscribed_subset phone { w with credCalls := w.credCalls + 1 }
  have hses : sessOf { w with credCalls := w.credCalls + 1 } phone = sessOf w phone := rfl
  unfold connectToWhatsApp
  rw [hv]
  simp only [Bool.not_true, Bool.false_eq_true, if_false, hnc]
  rcases hd : (sessOf (safeEndSocket phone { w with credCalls := w.credCalls + 1 })
      phone).disconnectTimer with _ | t0 <;>
    simp only [hd] <;>
    refine ⟨trivial, ?_, ?_, ?_, ?_⟩
  · simp [makeWASocket, sockOf, sessOf, sget_sset_same, hg.1]
  · simp only [makeWASocket, sset]
    rw [hg.1]
    exact List.mem_cons_self _ _
  · simp only [makeWASocket, sset]
    exact fun sid h => hsub sid h
  · intro t ht
    rw [← hses, ← hks.2.1, hd] at ht
    exact Option.noConfusion ht
  · simp [makeWASocket, sockOf, sessOf, sget_sset_same, clearTimer, hg.1]
  · simp only [makeWASocket, sset, clearTimer]
    rw [hg.1]
    exact List.mem_cons_self _ _
  · simp only [makeWASocket, sset, clearTimer]
    exact fun sid h => hsub sid h
  · intro t ht
    rw [← hses, ← hks.2.1, hd] at ht
    rcases Option.some.inj ht with rfl
    simp only [makeWASocket, sset, clearTimer]
    rw [hg.2.2.1]
    exact find?_filter_id_ne _ _

/-! ## Lemmas about events and the disconnect timer -/

/-- The open branch: a fresh single-shot 5000 ms timer is armed and bound in
`disconnectTimer`; the session becomes connected; the stored socket is kept. -/
theorem openEvent_props (sid : Nat) (w : World) (hsub : sid ∈ w.subscribed) :
    (openEvent sid w).timers = ⟨w.nextTimer, ownerOf w sid, 5000⟩ :: w.timers
    ∧ sessOf (openEvent sid w) (ownerOf w sid) =
        { sessOf w (ownerOf w sid) with
          isConnected := true, isManualDisconnect := false,
          disconnectTimer := some w.nextTimer }
    ∧ (openEvent sid w).nextTimer = w.nextTimer + 1
    ∧ (openEvent sid w).liveSocks = w.liveSocks
    ∧ (openEvent sid w).subscribed = w.subscribed
    ∧ (openEvent sid w).endedSocks = w.endedSocks := by
  unfold openEvent
  rw [if_pos hsub]
  refine ⟨rfl, ?_, rfl, rfl, rfl, rfl⟩
  exact sessOf_sset_same _ _ _

/-- Firing an armed timer: the callback looks up the session registered for
the phone the timer closed over, sets `isManualDisconnect`, and tears down
whatever socket that session holds right now. -/
theorem timerFire_armed (t : Nat) (w : World) (tm : TimerRec)
    (hf : w.timers.find? (fun x => x.id = t) = some tm) :
    (sessOf (timerFire t w) tm.phone).isManualDisconnect = true
    ∧ sockOf (timerFire t w) tm.phone = none
    ∧ (sessOf (timerFire t w) tm.phone).isConnected
        = ((sessOf w tm.phone).isConnected && !(sessOf w tm.phone).sock.isSome)
    ∧ (∀ sid, sockOf w tm.phone = some sid →
        sid ∈ (timerFire t w).endedSocks
        ∧ ∀ pr ∈ (timerFire t w).liveSocks, pr.1 ≠ sid)
    ∧ (timerFire t w).timers = w.timers.filter (fun tm => tm.id ≠ t) := by
  unfold timerFire
  rw [hf]
  have hclr : sessOf (clearTimer t w) tm.phone = sessOf w tm.phone := rfl
  have hks := safeEndSocket_keeps tm.phone
    (sset (clearTimer t w) tm.phone
      { sessOf (clearTimer t w) tm.phone with isManualDisconnect := true })
  have hcon := safeEndSocket_isConnected tm.phone
    (sset (clearTimer t w) tm.phone
      { sessOf (clearTimer t w) tm.phone with isManualDisconnect := true })
  have hg := safeEndSocket_ghost tm.phone
    (sset (clearTimer t w) tm.phone
      { sessOf (clearTimer t w) tm.phone with isManualDisconnect := true })
  refine ⟨?_, ?_, ?_, ?_, ?_⟩
  · rw [hks.1, sessOf_sset_same]
  · exact sockOf_safeEndSocket_self _ _
  · rw [hcon, sessOf_sset_same]
    rfl
  · intro sid hsid
    have hsock : sockOf (sset (clearTimer t w) tm.phone
        { sessOf (clearTimer t w) tm.phone with isManualDisconnect := true })
        tm.phone = some sid := by
      unfold sockOf
      rw [sessOf_sset_same]
      exact hsid
    exact safeEndSocket_ends _ _ _ hsock
  · rw [hg.2.2.1]
    rfl

/-- Firing a cleared (or never armed) timer identifier is a no-op. -/
theorem timerFire_cleared (t : Nat) (w : World)
    (hf : w.timers.find? (fun x => x.id = t) = none) : timerFire t w = w := by
  unfold timerFire
  rw [hf]

/-! ## Lemmas about the polling loop -/

theorem pollExit_ge (obs : Nat → Option QrImage) :
    ∀ fuel i, i ≤ pollExit obs fuel i := by
  intro fuel
  induction fuel with
  | zero => intro i; exact Nat.le_refl i
  | succ fuel ih =>
    intro i
    unfold pollExit
    rcases h : obs i with _ | img
    · simp only [h]
      exact Nat.le_trans (Nat.le_succ i) (ih (i + 1))
    · simp only [h]
      exact Nat.le_refl i

theorem pollExit_le (obs : Nat → Option QrImage) :
    ∀ fuel i, pollExit obs fuel i ≤ i + fuel := by
  intro fuel
  induction fuel with
  | zero => intro i; exact Nat.le_refl i
  | succ fuel ih =>
    intro i
    unfold pollExit
    rcases h : obs i with _ | img
    · simp only [h]
      have := ih (i + 1)
      omega
    · simp only [h]
      omega

/-- Every check strictly before the exit index observed no image. -/
theorem pollExit_none_before (obs : Nat → Option QrImage) :
    ∀ fuel i j, i ≤ j → j < pollExit obs fuel i → obs j = none := by
  intro fuel
  induction fuel with
  | zero =>
    intro i j hij hj
    unfold pollExit at hj
    omega
  | succ fuel ih =>
    intro i j hij hj
    unfold pollExit at hj
    rcases h : obs i with _ | img
    · simp only [h] at hj
      rcases Nat.eq_or_lt_of_le hij with rfl | hlt
      · exact h
      · exact ih (i + 1) j hlt hj
    · simp only [h] at hj
      omega

/-- If the loop exits with no image, no check in the window saw one. -/
theorem pollExit_all_none (obs : Nat → Option QrImage) :
    ∀ fuel i, obs (pollExit obs fuel i) = none →
      ∀ j, i ≤ j → j ≤ i + fuel → obs j = none := by
  intro fuel
  induction fuel with
  | zero =>
    intro i hnone j hij hji
    unfold pollExit at hnone
    have : j = i := by omega
    rwa [this]
  | succ fuel ih =>
    intro i hnone j hij hji
    rcases h : obs i with _ | img
    · unfold pollExit at hnone
      simp only [h] at hnone
      rcases Nat.eq_or_lt_of_le hij with rfl | hlt
      · exact h
      · exact ih (i + 1) hnone j hlt (by omega)
    · unfold pollExit at hnone
      simp only [h] at hnone
      exact Option.noConfusion hnone

/-! ## The single-live-handle invariant -/

theorem LiveInv_safeEndSocket (p : String) (w : World) (h : LiveInv w) :
    LiveInv (safeEndSocket p w)
    ∧ ∀ x : Nat, (x, p) ∉ (safeEndSocket p w).liveSocks := by
  unfold LiveInv at h ⊢
  unfold safeEndSocket
  rcases hs : sget w p with _ | s
  · refine ⟨h, fun x hx => ?_⟩
    have hv := h (x, p) hx
    unfold sockOf sessOf at hv
    rw [hs] at hv
    simp at hv
  rcases hsk : s.sock with _ | sid
  · simp only [hsk]
    refine ⟨h, fun x hx => ?_⟩
    have hv := h (x, p) hx
    unfold sockOf sessOf at hv
    rw [hs] at hv
    simp only [Option.getD_some] at hv
    rw [hsk] at hv
    exact Option.noConfusion hv
  · simp only [hsk]
    have hvp : ∀ pr : Nat × String, pr ∈ w.liveSocks → pr.2 = p → pr.1 = sid := by
      intro pr hm hp
      have hv := h pr hm
      rw [hp] at hv
      unfold sockOf sessOf at hv
      rw [hs] at hv
      simp only [Option.getD_some] at hv
      rw [hsk] at hv
      exact Option.some.inj hv.symm
    constructor
    · intro pr hpr
      simp only [sset, endSock, unsubscribeSock, List.mem_filter,
        decide_eq_true_eq] at hpr
      rcases hpr with ⟨hmem, hne⟩
      have hv := h pr hmem
      by_cases hp : pr.2 = p
      · exact absurd (hvp pr hmem hp) hne
      · unfold sockOf
        rw [sessOf_sset_ne _ _ _ _ hp]
        exact hv
    · intro x hx
      simp only [sset, endSock, unsubscribeSock, List.mem_filter,
        decide_eq_true_eq] at hx
      exact hx.2 (hvp (x, p) hx.1 rfl)

/-- Any `sessions.set` that does not change which socket the written session
holds preserves the invariant. -/
theorem LiveInv_sset (w : World) (p : String) (s : Session)
    (hsk : s.sock = sockOf w p) (h : LiveInv w) : LiveInv (sset w p s) := by
  unfold LiveInv at h ⊢
  intro pr hpr
  have hm : pr ∈ w.liveSocks := hpr
  have hv := h pr hm
  by_cases hp : pr.2 = p
  · rw [hp]
    unfold sockOf
    rw [sessOf_sset_same, hsk]
    rw [hp] at hv
    exact hv
  · unfold sockOf
    rw [sessOf_sset_ne _ _ _ _ hp]
    exact hv

theorem LiveInv_generateQR_core (p : String) (w : World) (h : LiveInv w) :
    LiveInv (generateQR_core p w) := by
  have hse := LiveInv_safeEndSocket p { w with credCalls := w.credCalls + 1 } h
  unfold LiveInv at hse ⊢
  unfold generateQR_core makeWASocket
  intro pr hpr
  simp only [sset, List.mem_cons, Prod.mk.injEq] at hpr
  obtain ⟨x, q⟩ := pr
  rcases hpr with ⟨rfl, rfl⟩ | hmem
  · unfold sockOf sessOf sget
    simp only [sset, rget_rset_same, Option.getD_some]
  · by_cases hp : q = p
    · rw [hp] at hmem
      exact absurd hmem (hse.2 x)
    · have hv := hse.1 (x, q) hmem
      unfold sockOf sessOf sget at hv ⊢
      simp only [sset]
      rw [rget_rset_ne _ _ _ _ hp]
      exact hv

theorem LiveInv_connectToWhatsApp (p : String) (auth : Bool) (w : World)
    (h : LiveInv w) : LiveInv ((connectToWhatsApp p auth w).2) := by
  unfold connectToWhatsApp
  by_cases hv : phoneValid p
  all_goals simp only [hv, Bool.not_true, Bool.not_false, Bool.false_eq_true,
    Bool.true_eq_false, if_false, if_true]
  case neg => exact h
  by_cases hc : (sessOf w p).isConnected
  all_goals simp only [hc, if_false, if_true]
  case pos => exact h
  by_cases ha : auth
  all_goals simp only [ha, Bool.not_true, Bool.not_false, Bool.false_eq_true,
    Bool.true_eq_false, if_false, if_true]
  case neg => exact h
  have hse := LiveInv_safeEndSocket p { w with credCalls := w.credCalls + 1 } h
  rcases hd : (sessOf (safeEndSocket p { w with credCalls := w.credCalls + 1 })
      p).disconnectTimer with _ | t0
  all_goals simp only [hd]
  · unfold LiveInv at hse ⊢
    unfold makeWASocket
    intro pr hpr
    simp only [sset, List.mem_cons, Prod.mk.injEq] at hpr
    obtain ⟨x, q⟩ := pr
    rcases hpr with ⟨rfl, rfl⟩ | hmem
    · unfold sockOf sessOf sget
      simp only [sset, rget_rset_same, Option.getD_some]
    · by_cases hp : q = p
      · rw [hp] at hmem
        exact absurd hmem (hse.2 x)
      · have hval := hse.1 (x, q) hmem
        unfold sockOf sessOf sget at hval ⊢
        simp only [sset]
        rw [rget_rset_ne _ _ _ _ hp]
        exact hval
  · unfold LiveInv at hse ⊢
    unfold makeWASocket clearTimer
    intro pr hpr
    simp only [sset, List.mem_cons, Prod.mk.injEq] at hpr
    obtain ⟨x, q⟩ := pr
    rcases hpr with ⟨rfl, rfl⟩ | hmem
    · unfold sockOf sessOf sget
      simp only [sset, rget_rset_same, Option.getD_some]
    · by_cases hp : q = p
      · rw [hp] at hmem
        exact absurd hmem (hse.2 x)
      · have hval := hse.1 (x, q) hmem
        unfold sockOf sessOf sget at hval ⊢
        simp only [sset]
        rw [rget_rset_ne _ _ _ _ hp]
        exact hval

theorem LiveInv_step (a : Act) (w : World) (hns : a.splitCommit = false)
    (h : LiveInv w) : LiveInv (stepAct a w) := by
  cases a with
  | startQR phone =>
    unfold stepAct generateQR
    by_cases hv : phoneValid phone
    · simp only [hv, if_true]
      exact LiveInv_generateQR_core phone w h
    · simp only [hv, Bool.false_eq_true, if_false]
      exact h
  | connectCall phone auth => exact LiveInv_connectToWhatsApp phone auth w h
  | qrBegin sid raw =>
    unfold stepAct qrEventBegin
    by_cases hsub : sid ∈ w.subscribed
    · simp only [hsub, if_true]
      exact h
    · simp only [hsub, if_false]
      exact h
  | qrFinish pq => exact absurd hns (by simp [Act.splitCommit])
  | qrSync sid raw =>
    unfold stepAct qrEventSync
    by_cases hsub : sid ∈ w.subscribed
    · simp only [hsub, if_true]
      exact LiveInv_sset _ _ _ rfl h
    · simp only [hsub, if_false]
      exact h
  | closeEvt sid err =>
    unfold stepAct closeEvent
    by_cases hsub : sid ∈ w.subscribed
    · simp only [hsub, if_true]
      rcases hs : sget w (ownerOf w sid) with _ | s
      · simp only [hs]
        exact h
      simp only [hs]
      rcases hd : s.disconnectTimer with _ | t0
      · simp only [hd]
        refine LiveInv_sset _ _ _ ?_ h
        unfold sockOf sessOf
        rw [hs]
        rfl
      · simp only [hd]
        have h2 : LiveInv (clearTimer t0 w) := h
        refine LiveInv_sset _ _ _ ?_ h2
        have hs2 : sget (clearTimer t0 w) (ownerOf w sid) = some s := hs
        unfold sockOf sessOf
        rw [hs2]
        rfl
    · simp only [hsub, if_false]
      exact h
  | openEvt sid =>
    unfold stepAct openEvent
    by_cases hsub : sid ∈ w.subscribed
    · simp only [hsub, if_true]
      exact LiveInv_sset _ _ _ rfl h
    · simp only [hsub, if_false]
      exact h
  | fireTimer t =>
    unfold stepAct timerFire
    rcases hf : w.timers.find? (fun tm => tm.id = t) with _ | tm
    · simp only [hf]
      exact h
    · simp only [hf]
      refine (LiveInv_safeEndSocket _ _ ?_).1
      exact LiveInv_sset _ _ _ rfl h
  | reset phone =>
    unfold stepAct getQRCode_reset
    exact LiveInv_sset _ _ _ rfl h

theorem LiveInv_run (tr : List Act) :
    ∀ w : World, (∀ a ∈ tr, a.splitCommit = false) → LiveInv w →
      LiveInv (runActs tr w) := by
  induction tr with
  | nil => exact fun w _ h => h
  | cons a tl ih =>
    intro w hns h
    unfold runActs
    exact ih (stepAct a w) (fun b hb => hns b (List.mem_cons_of_mem a hb))
      (LiveInv_step a w (hns a (List.mem_cons_self a tl)) h)

theorem LiveInv_atMostOne (w : World) (h : LiveInv w) : atMostOneLive w := by
  unfold LiveInv at h
  unfold atMostOneLive
  intro pr hp qr hq hpq
  have h1 := h pr hp
  have h2 := h qr hq
  rw [hpq] at h1
  rw [h1] at h2
  exact Option.some.inj h2

/-! ## Claim theorems -/

/-- C1: at a close event carrying the logout reason — a `Boom` whose
`output.statusCode` equals `DisconnectReason.loggedOut` — with
`manualDisconnectRequested = false`, the handler computes
`shouldReconnect = true` and invokes `generateQR`: the optional chain is
parenthesised onto the boolean `instanceof` result, which has no `output`
property, so the comparison against the logout code never succeeds.  The
claim (and spec scenario D) require that no reconnect occur here. -/
theorem C1_logout_close_reconnects :
    shouldReconnect false (some (boomWithStatus DisconnectReason_loggedOut)) = true
    ∧ closeStatusCode (some (boomWithStatus DisconnectReason_loggedOut)) = JVal.undefined
    ∧ (closeEvent 0 (some (boomWithStatus DisconnectReason_loggedOut))
        (generateQR_core "1" initialWorld)).2 = true := by
  refine ⟨rfl, rfl, ?_⟩
  decide

/-- C4 counterexample: for the malformed accountId `"abc"`, the qr endpoint
responds with status 500, not the claimed client-error status 400. -/
theorem C4_counterexample :
    (getQRCode (some "abc") (fun _ => none) initialWorld).1.status = 500
    ∧ (getQRCode (some "abc") (fun _ => none) initialWorld).1.status ≠ 400 := by
  constructor <;> decide

/-- C4 (amended): for every malformed accountId, `connect` rejects with
status 400 and an unchanged world, while the qr endpoint rejects with status
500 (the `ValidationError` thrown inside `generateQR` reaches the generic
catch); in both cases no credential-store, factory or encoder call occurs. -/
theorem C4_amended (w : World) (phone : String) (obs : Nat → Option QrImage)
    (authExists : Bool) (hne : phone.isEmpty = false)
    (hv : phoneValid phone = false) :
    ((connect (some phone) authExists w).1.status = 400
      ∧ (connect (some phone) authExists w).1.success = false
      ∧ (connect (some phone) authExists w).2 = w)
    ∧ ((getQRCode (some phone) obs w).1.status = 500
      ∧ (getQRCode (some phone) obs w).1.success = false
      ∧ (getQRCode (some phone) obs w).2.credCalls = w.credCalls
      ∧ (getQRCode (some phone) obs w).2.factoryCalls = w.factoryCalls
      ∧ (getQRCode (some phone) obs w).2.encodeCalls = w.encodeCalls) := by
  constructor
  · simp [connect, connectToWhatsApp, hne, hv]
  · simp [getQRCode, generateQR, getQRCode_reset, hne, hv, sset]

theorem C4_amended_witness :
    (connect (some "abc") true initialWorld).1.status = 400
    ∧ (getQRCode (some "abc") (fun _ => none) initialWorld).1.status = 500 :=
  ⟨(C4_amended initialWorld "abc" (fun _ => none) true (by decide) (by decide)).1.1,
   (C4_amended initialWorld "abc" (fun _ => none) true (by decide) (by decide)).2.1⟩

/-- C5 counterexample: from the initial state, `connectToWhatsApp` succeeds,
creates and stores a fresh connection handle — yet the set of subscribed
sockets stays empty: the connect path attaches no event handlers. -/
theorem C5_counterexample :
    (connectToWhatsApp "1" true initialWorld).1.1 = true
    ∧ sockOf (connectToWhatsApp "1" true initialWorld).2 "1" = some 0
    ∧ (connectToWhatsApp "1" true initialWorld).2.subscribed = [] := by
  decide

/-- C5 (amended): a successful `generateQR` (the provisioning path) creates a
fresh handle from the loaded credentials, stores it and subscribes handlers
before returning; a successful `connectToWhatsApp` creates and stores a fresh
handle but subscribes nothing to its event stream. -/
theorem C5_amended (w : World) (phone : String)
    (hv : phoneValid phone = true)
    (hnc : (sessOf w phone).isConnected = false) :
    (generateQR phone w = Except.ok (generateQR_core phone w)
      ∧ sockOf (generateQR_core phone w) phone = some w.nextSock
      ∧ (w.nextSock, phone) ∈ (generateQR_core phone w).liveSocks
      ∧ w.nextSock ∈ (generateQR_core phone w).subscribed)
    ∧ ((connectToWhatsApp phone true w).1 = (true, "Connection process started")
      ∧ sockOf (connectToWhatsApp phone true w).2 phone = some w.nextSock
      ∧ (w.nextSock, phone) ∈ (connectToWhatsApp phone true w).2.liveSocks
      ∧ ∀ sid ∈ (connectToWhatsApp phone true w).2.subscribed,
          sid ∈ w.subscribed) := by
  have hq := generateQR_core_props phone w
  have hc := connectToWhatsApp_success phone w hv hnc
  exact ⟨⟨by simp [generateQR, hv], hq.1, hq.2.1, hq.2.2.1⟩,
    ⟨hc.1, hc.2.1, hc.2.2.1, hc.2.2.2.1⟩⟩

theorem C5_amended_witness :
    sockOf (generateQR_core "1" initialWorld) "1" = some 0
    ∧ 0 ∈ (generateQR_core "1" initialWorld).subscribed :=
  ⟨(C5_amended initialWorld "1" (by decide) (by decide)).1.2.1,
   (C5_amended initialWorld "1" (by decide) (by decide)).1.2.2.2⟩

/-- C8: calling `connectToWhatsApp` while the session is connected returns
success immediately and leaves the whole world untouched — no new handle, no
teardown, no advance of the socket counter. -/
theorem C8_connect_idempotent (w : World) (phone : String) (authExists : Bool)
    (hv : phoneValid phone = true)
    (hc : (sessOf w phone).isConnected = true) :
    connectToWhatsApp phone authExists w
      = ((true, "Already connected to WhatsApp"), w) := by
  unfold connectToWhatsApp
  rw [hv, hc]
  simp

theorem C8_connect_idempotent_witness :
    connectToWhatsApp "1" false (sset initialWorld "1" { isConnected := true })
      = ((true, "Already connected to WhatsApp"),
          sset initialWorld "1" { isConnected := true }) :=
  C8_connect_idempotent _ _ _ (by decide) (by decide)

/-- C9: the wait of `getQRCode` performs at most 20 sleeps of 500 ms (10 s
budget), every check before the exit saw no image, the endpoint answers 408
exactly when no check within the budget saw an image, and otherwise answers
200 with the image found at the first populated check. -/
theorem C9_poll_budget (w : World) (phone : String)
    (obs : Nat → Option QrImage) (hv : phoneValid phone = true) :
    (getQRCode_poll obs).2 ≤ 20
    ∧ (∀ j, j < (getQRCode_poll obs).2 → obs j = none)
    ∧ ((getQRCode (some phone) obs w).1.status = 408
        ↔ ∀ j, j ≤ 20 → obs j = none)
    ∧ (∀ img, (getQRCode_poll obs).1 = some img →
        (getQRCode (some phone) obs w).1 = ⟨200, true, "", some img⟩) := by
  have hne : phone.isEmpty = false := by
    cases h : phone.isEmpty
    · rfl
    · unfold phoneValid at hv
      rw [h] at hv
      simp at hv
  have hexit := pollExit_le obs 20 0
  refine ⟨by simpa using hexit,
    fun j hj => pollExit_none_before obs 20 0 j (Nat.zero_le j) hj, ?_, ?_⟩
  · rcases hpoll : obs (pollExit obs 20 0) with _ | img
    · refine ⟨fun _ j hj => pollExit_all_none obs 20 0 hpoll j (Nat.zero_le j)
        (by omega), fun _ => ?_⟩
      unfold getQRCode getQRCode_poll generateQR
      simp [hne, hv, hpoll]
    · refine ⟨fun hcontra => ?_, fun hall => ?_⟩
      · unfold getQRCode getQRCode_poll generateQR at hcontra
        simp [hne, hv, hpoll] at hcontra
      · have h0 := hall (pollExit obs 20 0) (by simpa using hexit)
        rw [hpoll] at h0
        exact Option.noConfusion h0
  · intro img him
    have hpoll : obs (pollExit obs 20 0) = some img := him
    unfold getQRCode getQRCode_poll generateQR
    simp [hne, hv, hpoll]

theorem C9_poll_budget_witness :
    (getQRCode (some "1") (fun _ => none) initialWorld).1.status = 408 :=
  (C9_poll_budget initialWorld "1" (fun _ => none)
    (by decide)).2.2.1.mpr (fun _ _ => rfl)

/-- C10: a present but malformed phone parameter still causes `getQRCode` to
create or overwrite the registry entry under the raw string — clearing the
pairing image and the manual-disconnect flag — before validation rejects the
request, which fails with status 500. -/
theorem C10_reset_before_validation (w : World) (phone : String)
    (obs : Nat → Option QrImage)
    (hne : phone.isEmpty = false) (hv : phoneValid phone = false) :
    (getQRCode (some phone) obs w).1.success = false
    ∧ sget (getQRCode (some phone) obs w).2 phone =
        some { sessOf w phone with qr := none, isManualDisconnect := false } := by
  simp [getQRCode, generateQR, getQRCode_reset, hne, hv, sget_sset_same]

theorem C10_witness :
    sget (getQRCode (some "abc") (fun _ => none) initialWorld).2 "abc" =
      some { sessOf initialWorld "abc" with
             qr := none, isManualDisconnect := false } :=
  (C10_reset_before_validation initialWorld "abc" (fun _ => none)
    (by decide) (by decide)).2

/-- C2 counterexample: arm the auto-disconnect timer through an open event,
replace the connection handle with a second `generateQR` (which overwrites
`disconnectTimer` with null but never calls `clearTimeout`), then let the
timer fire.  Before the firing the session holds the replacement handle
(socket 1); the firing sets `isManualDisconnect` and ends socket 1 — it is
not a no-op. -/
theorem C2_counterexample :
    sockOf (runActs [Act.startQR "1", Act.openEvt 0, Act.startQR "1"]
        initialWorld) "1" = some 1
    ∧ (sessOf (runActs [Act.startQR "1", Act.openEvt 0, Act.startQR "1",
        Act.fireTimer 0] initialWorld) "1").isManualDisconnect = true
    ∧ 1 ∈ (runActs [Act.startQR "1", Act.openEvt 0, Act.startQR "1",
        Act.fireTimer 0] initialWorld).endedSocks
    ∧ sockOf (runActs [Act.startQR "1", Act.openEvt 0, Act.startQR "1",
        Act.fireTimer 0] initialWorld) "1" = none := by
  decide

/-- C2 (amended): the timer callback performs no epoch re-check — firing an
armed timer always sets `isManualDisconnect` and tears down whatever handle
the session currently holds, and a firing is a no-op exactly when the timer
identifier is no longer armed.  `connectToWhatsApp` does cancel the pending
timer when it replaces the handle, but `generateQR` leaves it armed. -/
theorem C2_amended (w : World) (phone : String) (t : Nat) (tm : TimerRec) :
    (generateQR_core phone w).timers = w.timers
    ∧ (w.timers.find? (fun x => x.id = t) = none → timerFire t w = w)
    ∧ (w.timers.find? (fun x => x.id = t) = some tm →
        (sessOf (timerFire t w) tm.phone).isManualDisconnect = true
        ∧ sockOf (timerFire t w) tm.phone = none
        ∧ ∀ sid, sockOf w tm.phone = some sid →
            sid ∈ (timerFire t w).endedSocks)
    ∧ ((sessOf w phone).isConnected = false →
        (sessOf w phone).disconnectTimer = some t →
        phoneValid phone = true →
        ((connectToWhatsApp phone true w).2).timers.find?
          (fun x => x.id = t) = none) := by
  refine ⟨(generateQR_core_props phone w).2.2.2.2.1, timerFire_cleared t w, ?_, ?_⟩
  · intro hf
    have h := timerFire_armed t w tm hf
    exact ⟨h.1, h.2.1, fun sid hs => (h.2.2.2.1 sid hs).1⟩
  · intro hnc hd hv
    exact (connectToWhatsApp_success phone w hv hnc).2.2.2.2 t hd

theorem C2_amended_witness :
    (sessOf (timerFire 0 (runActs [Act.startQR "1", Act.openEvt 0,
        Act.startQR "1"] initialWorld)) "1").isManualDisconnect = true :=
  ((C2_amended (runActs [Act.startQR "1", Act.openEvt 0, Act.startQR "1"]
      initialWorld) "1" 0 ⟨0, "1", 5000⟩).2.2.1 (by decide)).1

/-- C7: when a subscribed connection reports open, a single-shot 5000 ms
timer is armed and bound in the session; absent an earlier close event, its
firing sets `isManualDisconnect`, tears down the connection handle and leaves
the session disconnected, and a repeated firing of the same identifier is a
no-op. -/
theorem C7_auto_disconnect (w : World) (sid : Nat) (phone : String)
    (hsub : sid ∈ w.subscribed)
    (hown : ownerOf w sid = phone)
    (hsock : sockOf w phone = some sid) :
    (⟨w.nextTimer, phone, 5000⟩ : TimerRec) ∈ (openEvent sid w).timers
    ∧ (sessOf (openEvent sid w) phone).disconnectTimer = some w.nextTimer
    ∧ (sessOf (openEvent sid w) phone).isConnected = true
    ∧ (sessOf (timerFire w.nextTimer (openEvent sid w)) phone).isManualDisconnect
        = true
    ∧ (sessOf (timerFire w.nextTimer (openEvent sid w)) phone).isConnected = false
    ∧ sockOf (timerFire w.nextTimer (openEvent sid w)) phone = none
    ∧ sid ∈ (timerFire w.nextTimer (openEvent sid w)).endedSocks
    ∧ timerFire w.nextTimer (timerFire w.nextTimer (openEvent sid w))
        = timerFire w.nextTimer (openEvent sid w) := by
  have hop := openEvent_props sid w hsub
  rw [hown] at hop
  have hsess := hop.2.1
  have hfind : (openEvent sid w).timers.find? (fun x => x.id = w.nextTimer)
      = some ⟨w.nextTimer, phone, 5000⟩ := by
    rw [hop.1]
    exact List.find?_cons_of_pos _ (by simp)
  have hfire := timerFire_armed w.nextTimer (openEvent sid w)
    ⟨w.nextTimer, phone, 5000⟩ hfind
  have hsock1 : sockOf (openEvent sid w) phone = some sid := by
    unfold sockOf
    rw [hsess]
    exact hsock
  refine ⟨?_, ?_, ?_, hfire.1, ?_, hfire.2.1, ?_, ?_⟩
  · rw [hop.1]
    exact List.mem_cons_self _ _
  · rw [hsess]
  · rw [hsess]
  · rw [hfire.2.2.1, hsess]
    unfold sockOf at hsock
    simp [hsock]
  · exact (hfire.2.2.2.1 sid hsock1).1
  · refine timerFire_cleared _ _ ?_
    rw [hfire.2.2.2.2]
    exact find?_filter_id_ne _ _

theorem C7_auto_disconnect_witness :
    (sessOf (timerFire 0 (openEvent 0 (generateQR_core "1" initialWorld)))
      "1").isManualDisconnect = true
    ∧ sockOf (timerFire 0 (openEvent 0 (generateQR_core "1" initialWorld)))
      "1" = none :=
  ⟨(C7_auto_disconnect (generateQR_core "1" initialWorld) 0 "1"
      (by decide) (by decide) (by decide)).2.2.2.1,
   (C7_auto_disconnect (generateQR_core "1" initialWorld) 0 "1"
      (by decide) (by decide) (by decide)).2.2.2.2.2.1⟩

/-- C3 counterexample: caller 1 provisions (socket 0), the qr handler for
socket 0 suspends on the encoder; caller 2 re-provisions (the reset clears
`qr`, `generateQR` ends socket 0 and creates socket 1); then the suspended
commit lands.  The registry now holds the image rendered from socket 0's
challenge even though socket 0 was superseded and ended, and the presence
poll returns that stale image at its very first check instead of the newer
connection's image or a timeout. -/
theorem C3_counterexample :
    (getQRCode_poll (fun _ =>
        (sessOf (runActs [Act.reset "1", Act.startQR "1", Act.qrBegin 0 "rawA",
          Act.reset "1", Act.startQR "1",
          Act.qrFinish ⟨"1", { sock := some 0 }, (0, qrToDataURL "rawA")⟩]
          initialWorld) "1").qr)).1
      = some (0, qrToDataURL "rawA")
    ∧ 0 ∈ (runActs [Act.reset "1", Act.startQR "1", Act.qrBegin 0 "rawA",
        Act.reset "1", Act.startQR "1",
        Act.qrFinish ⟨"1", { sock := some 0 }, (0, qrToDataURL "rawA")⟩]
        initialWorld).endedSocks
    ∧ (1, "1") ∈ (runActs [Act.reset "1", Act.startQR "1", Act.qrBegin 0 "rawA",
        Act.reset "1", Act.startQR "1",
        Act.qrFinish ⟨"1", { sock := some 0 }, (0, qrToDataURL "rawA")⟩]
        initialWorld).liveSocks
    ∧ (0, "1") ∉ (runActs [Act.reset "1", Act.startQR "1", Act.qrBegin 0 "rawA",
        Act.reset "1", Act.startQR "1",
        Act.qrFinish ⟨"1", { sock := some 0 }, (0, qrToDataURL "rawA")⟩]
        initialWorld).liveSocks := by
  decide

/-- C3 (amended): the poll compares only `pairingImage` presence and never an
epoch: a caller receives exactly the image found at the first populated check
of its window — whichever connection produced it — and otherwise Timeout. -/
theorem C3_amended (obs : Nat → Option QrImage) (img : QrImage)
    (him : (getQRCode_poll obs).1 = some img) :
    ∃ i, i ≤ 20 ∧ obs i = some img ∧ ∀ j, j < i → obs j = none := by
  refine ⟨pollExit obs 20 0, by simpa using pollExit_le obs 20 0, him,
    fun j hj => pollExit_none_before obs 20 0 j (Nat.zero_le j) hj⟩

theorem C3_amended_witness :
    ∃ i, i ≤ 20 ∧ (fun _ => some ((0, "d") : QrImage)) i = some ((0, "d") : QrImage)
      ∧ ∀ j, j < i → (fun _ => some ((0, "d") : QrImage)) j = none :=
  C3_amended (fun _ => some (0, "d")) (0, "d") rfl

/-- C6 counterexample: socket 0's qr handler suspends on the encoder with a
snapshot holding `sock = 0`; a second `generateQR` ends socket 0 and creates
socket 1; the suspended commit then writes the stale snapshot back, so the
registry again points at the dead socket 0; a third `generateQR` tears down
socket 0 (again) and creates socket 2 — leaving sockets 1 and 2 both created
and never torn down for the same account. -/
theorem C6_counterexample :
    ¬ atMostOneLive (runActs [Act.startQR "1", Act.qrBegin 0 "r",
        Act.startQR "1",
        Act.qrFinish ⟨"1", { sock := some 0 }, (0, qrToDataURL "r")⟩,
        Act.startQR "1"] initialWorld) := by
  decide

/-- C6 (amended): along every interleaving in which no qr-handler commit is
delayed past other actions (every other API call, event and firing in any
order), at most one created-but-not-torn-down handle exists per account; a
commit that is delayed across a handle replacement can restore a stale
snapshot and break the invariant, as the counterexample shows. -/
theorem C6_amended (tr : List Act)
    (hns : ∀ a ∈ tr, a.splitCommit = false) :
    atMostOneLive (runActs tr initialWorld) :=
  LiveInv_atMostOne _ (LiveInv_run tr initialWorld hns
    (fun pr hpr => absurd hpr (List.not_mem_nil pr)))

theorem C6_amended_witness :
    atMostOneLive (runActs [Act.startQR "1", Act.openEvt 0, Act.startQR "1",
      Act.qrSync 1 "r", Act.fireTimer 0, Act.connectCall "1" true]
      initialWorld) :=
  C6_amended _ (by decide)

end WAMS
